import Mathlib

/-!
Verification development for the SignYourPdf repository.

The coordinate-transform and field-geometry engine of
`src/pages/PDFSigningView.tsx` and the signature-processing loop of
`supabase/functions/generate-absolute-precision-pdf/index.ts` are embedded
shallowly: JavaScript numbers are modelled as exact rationals (`ℚ`), with a
separate `JSNum` type (finite / ±Infinity / NaN) used where the behaviour of
IEEE division by zero is itself the property under study.  DOM measurements
(`getBoundingClientRect`, `page.getSize`) are inputs to the embedded
functions; a measurement that may be unavailable (`null`) is an `Option`.
-/

set_option maxHeartbeats 1000000

namespace SignYourPdf

/-- The six field types of the `SignatureField` interface. -/
inductive FieldType where
  | signature
  | initials
  | name
  | date
  | text
  | company
deriving DecidableEq, Repr

/-- `canvas.getBoundingClientRect()` of the rendered PDF page: the on-screen
pixel size of the canvas (`getPdfCanvasBounds`). -/
structure CanvasBounds where
  width : ℚ
  height : ℚ
deriving DecidableEq, Repr

/-- `page.getSize()` from pdf-lib: the PDF page's native point dimensions
(`getPdfPageDimensions`). -/
structure PdfDims where
  width : ℚ
  height : ℚ
deriving DecidableEq, Repr

/-- The `SignatureField` interface: a placed annotation field.  Optional
(`?`) members of the TypeScript interface are `Option`s. -/
structure Field where
  id : String
  type : FieldType
  x : ℚ
  y : ℚ
  page : ℕ
  width : ℚ
  height : ℚ
  content : Option String := none
  font : Option String := none
  canvasWidth : Option ℚ := none
  canvasHeight : Option ℚ := none
  pdfWidth : Option ℚ := none
  pdfHeight : Option ℚ := none
  fontSize : Option ℤ := none
deriving DecidableEq, Repr

/-- JavaScript `Math.round`: round half toward positive infinity,
`Math.round(x) = ⌊x + 0.5⌋`. -/
def jsRound (q : ℚ) : ℤ :=
  ⌊q + 1/2⌋

/-- JavaScript `a || b` on numbers, where `a` may be absent
(`undefined`/`null`) and the number `0` is falsy. -/
def jsOrQ (a : Option ℚ) (b : ℚ) : ℚ :=
  match a with
  | some v => if v = 0 then b else v
  | none => b

/-- JavaScript `a || b` on strings, where `a` may be absent and the empty
string is falsy. -/
def jsOrStr (a : Option String) (b : String) : String :=
  match a with
  | some v => if v = "" then b else v
  | none => b

/-- The height-based base font size of `calculateDynamicFontSize`: the
`switch (type)` block.  (The generic assignment before the `switch` in the
source is overwritten by every branch, the `default` branch included, so it
is dead and not reproduced.)  `0.7 = 7/10`, `0.65 = 13/20`, `0.6 = 3/5`,
`0.55 = 11/20`. -/
def baseFontSize (height : ℚ) : FieldType → ℚ
  | .signature => max 12 (min (height * (7/10)) 36)
  | .initials => max 10 (min (height * (13/20)) 28)
  | .name => max 8 (min (height * (3/5)) 24)
  | _ => max 8 (min (height * (11/20)) 20)

/-- `calculateDynamicFontSize(width, height, type, contentLength)`: base size
from the box height by type, then a width-fit correction when the estimated
text width `contentLength * (base * 0.6)` exceeds `width - 16`, and finally
`Math.round`. -/
def calculateDynamicFontSize (width height : ℚ) (t : FieldType) (contentLength : ℕ) : ℤ :=
  jsRound
    (if width - 16 < (contentLength : ℚ) * (baseFontSize height t * (3/5)) then
      max 8 ((width - 16) / ((contentLength : ℚ) * (3/5)))
    else
      baseFontSize height t)

/-- Characters matched by the JavaScript regex class `\s` (the forms that can
occur in ordinary text input). -/
def isJsSpace (c : Char) : Bool :=
  c = ' ' || c = '\t' || c = '\n' || c = '\r' || c = '\x0b' || c = '\x0c'

/-- `.replace(/\n/g, ' ')`. -/
def replaceNewlines (s : String) : String :=
  ⟨s.data.map (fun c => if c = '\n' then ' ' else c)⟩

/-- Helper for `.replace(/\s+/g, ' ')`: each maximal run of whitespace
becomes a single space.  The flag records whether the previous character was
whitespace. -/
def collapseWsAux : Bool → List Char → List Char
  | _, [] => []
  | prevWs, c :: rest =>
    if isJsSpace c then
      if prevWs then collapseWsAux true rest
      else ' ' :: collapseWsAux true rest
    else
      c :: collapseWsAux false rest

/-- `.replace(/\s+/g, ' ')`. -/
def collapseWs (s : String) : String :=
  ⟨collapseWsAux false s.data⟩

/-- JavaScript `String.prototype.trim`: strip whitespace from both ends. -/
def jsTrim (s : String) : String :=
  ⟨((s.data.dropWhile isJsSpace).reverse.dropWhile isJsSpace).reverse⟩

/-- The single-line normalisation applied to all text input:
`content.replace(/\n/g, ' ').replace(/\s+/g, ' ').trim()`. -/
def normalizeContent (s : String) : String :=
  jsTrim (collapseWs (replaceNewlines s))

/-- Result record of `convertToAbsoluteCoordinates`. -/
structure ConvResult where
  absoluteX : ℚ
  absoluteY : ℚ
  canvasWidth : ℚ
  canvasHeight : ℚ
  pdfWidth : ℚ
  pdfHeight : ℚ
deriving DecidableEq, Repr

/-- `convertToAbsoluteCoordinates(canvasX, canvasY)` over exact rationals.
When either the canvas bounds or the PDF dimensions are unavailable (`null`)
the source warns and returns the input point with all stored dimensions `0`;
otherwise `scaleX = pdfWidth / canvasWidth`, `scaleY = pdfHeight /
canvasHeight`, `absoluteX = canvasX * scaleX`, `absoluteY = pdfHeight -
canvasY * scaleY`.  The divisions are exact only when the rendered
dimensions are nonzero; theorems about this function carry that
hypothesis (see `convertToAbsoluteCoordinatesJS` for the IEEE behaviour at
zero). -/
def convertToAbsoluteCoordinates (canvasX canvasY : ℚ) :
    Option CanvasBounds → Option PdfDims → ConvResult
  | some b, some d =>
    let scaleX := d.width / b.width
    let scaleY := d.height / b.height
    ⟨canvasX * scaleX, d.height - canvasY * scaleY, b.width, b.height, d.width, d.height⟩
  | _, _ => ⟨canvasX, canvasY, 0, 0, 0, 0⟩

/-- A JavaScript IEEE-754 number as far as the pipeline under study can
observe it: an exact finite value, an infinity, or NaN (negative zero is
identified with zero). -/
inductive JSNum where
  | fin : ℚ → JSNum
  | inf : JSNum
  | ninf : JSNum
  | nan : JSNum
deriving DecidableEq, Repr

namespace JSNum

/-- IEEE multiplication restricted to the observable values. -/
def mul : JSNum → JSNum → JSNum
  | fin a, fin b => fin (a * b)
  | fin a, inf => if a = 0 then nan else if 0 < a then inf else ninf
  | fin a, ninf => if a = 0 then nan else if 0 < a then ninf else inf
  | inf, fin b => if b = 0 then nan else if 0 < b then inf else ninf
  | ninf, fin b => if b = 0 then nan else if 0 < b then ninf else inf
  | inf, inf => inf
  | inf, ninf => ninf
  | ninf, inf => ninf
  | ninf, ninf => inf
  | nan, _ => nan
  | _, nan => nan

/-- IEEE division restricted to the observable values (`x / 0` with `x > 0`
is `+Infinity` since the JavaScript literal `0` is `+0`). -/
def div : JSNum → JSNum → JSNum
  | fin a, fin b =>
    if b = 0 then (if a = 0 then nan else if 0 < a then inf else ninf)
    else fin (a / b)
  | fin _, inf => fin 0
  | fin _, ninf => fin 0
  | inf, fin b => if 0 ≤ b then inf else ninf
  | ninf, fin b => if 0 ≤ b then ninf else inf
  | inf, inf => nan
  | inf, ninf => nan
  | ninf, inf => nan
  | ninf, ninf => nan
  | nan, _ => nan
  | _, nan => nan

/-- IEEE subtraction restricted to the observable values. -/
def sub : JSNum → JSNum → JSNum
  | fin a, fin b => fin (a - b)
  | fin _, inf => ninf
  | fin _, ninf => inf
  | inf, fin _ => inf
  | ninf, fin _ => ninf
  | inf, inf => nan
  | inf, ninf => inf
  | ninf, inf => ninf
  | ninf, ninf => nan
  | nan, _ => nan
  | _, nan => nan

/-- Whether the value is an ordinary finite number. -/
def isFinite : JSNum → Bool
  | fin _ => true
  | _ => false

end JSNum

/-- Result record of `convertToAbsoluteCoordinates` with the coordinate
outputs kept at IEEE fidelity. -/
structure ConvResultJS where
  absoluteX : JSNum
  absoluteY : JSNum
  canvasWidth : ℚ
  canvasHeight : ℚ
  pdfWidth : ℚ
  pdfHeight : ℚ
deriving DecidableEq, Repr

/-- `convertToAbsoluteCoordinates` again, but computing the coordinates with
IEEE semantics: the source performs `pdfWidth / canvasWidth` without
checking the measured canvas size for zero, so a present-but-degenerate
canvas (zero width or height, e.g. measured before layout) produces
Infinity or NaN exactly as JavaScript would. -/
def convertToAbsoluteCoordinatesJS (canvasX canvasY : ℚ) :
    Option CanvasBounds → Option PdfDims → ConvResultJS
  | some b, some d =>
    let scaleX := JSNum.div (.fin d.width) (.fin b.width)
    let scaleY := JSNum.div (.fin d.height) (.fin b.height)
    ⟨JSNum.mul (.fin canvasX) scaleX,
     JSNum.sub (.fin d.height) (JSNum.mul (.fin canvasY) scaleY),
     b.width, b.height, d.width, d.height⟩
  | _, _ => ⟨.fin canvasX, .fin canvasY, 0, 0, 0, 0⟩

/-- The type-specific default box size of `handlePdfClick`: signature
`180×50`, initials `80×35`, name `150×30`, everything else `120×30`. -/
def defaultFieldSize : FieldType → ℚ × ℚ
  | .signature => (180, 50)
  | .initials => (80, 35)
  | .name => (150, 30)
  | _ => (120, 30)

/-- `handlePdfClick` from the point where the click position relative to the
canvas has been computed (the DOM offset arithmetic that produces
`canvasX`/`canvasY` is an input here).  A click outside the canvas bounds is
ignored (`none`); otherwise the default box is clamped with 10px padding,
the absolute coordinates and dimension snapshot are computed via
`convertToAbsoluteCoordinates`, the initial font size is calculated with the
nominal content length 10, and a `date` field is auto-filled with the
current date string.  `fid` stands for the source's
`Date.now().toString()` and `currentDate` for
`new Date().toLocaleDateString()`. -/
def handlePdfClick (canvas : CanvasBounds) (dims : Option PdfDims) (placementMode : FieldType)
    (fid : String) (currentPage : ℕ) (currentDate : String) (canvasX canvasY : ℚ) :
    Option Field :=
  if canvasX < 0 ∨ canvasY < 0 ∨ canvas.width < canvasX ∨ canvas.height < canvasY then
    none
  else
    let fieldWidth := (defaultFieldSize placementMode).1
    let fieldHeight := (defaultFieldSize placementMode).2
    let adjustedX := min canvasX (canvas.width - fieldWidth - 10)
    let adjustedY := min canvasY (canvas.height - fieldHeight - 10)
    let conv := convertToAbsoluteCoordinates adjustedX adjustedY (some canvas) dims
    let newField : Field :=
      { id := fid
        type := placementMode
        x := max 0 adjustedX
        y := max 0 adjustedY
        page := currentPage
        width := fieldWidth
        height := fieldHeight
        fontSize := some (calculateDynamicFontSize fieldWidth fieldHeight placementMode 10)
        canvasWidth := some conv.canvasWidth
        canvasHeight := some conv.canvasHeight
        pdfWidth := some conv.pdfWidth
        pdfHeight := some conv.pdfHeight }
    some (if placementMode = .date then { newField with content := some currentDate } else newField)

/-- `updateFieldContent`: normalise the text to a single line and recompute
the font size from the normalised content's actual length. -/
def updateFieldContent (f : Field) (content : String) : Field :=
  let singleLineContent := normalizeContent content
  { f with
    content := some singleLineContent
    fontSize := some (calculateDynamicFontSize f.width f.height f.type singleLineContent.length) }

/-- `handleFieldDrag`: clamp the dropped position to the canvas with 5px
padding and refresh the stored canvas dimension snapshot. -/
def handleFieldDrag (canvas : CanvasBounds) (f : Field) (dataX dataY : ℚ) : Field :=
  { f with
    x := max 0 (min dataX (canvas.width - f.width - 5))
    y := max 0 (min dataY (canvas.height - f.height - 5))
    canvasWidth := some canvas.width
    canvasHeight := some canvas.height }

/-- `field.content?.length || 10` in `handleFieldResize`: an absent content
gives `undefined` and an empty content gives `0`, both falsy. -/
def contentLenOr10 : Option String → ℕ
  | none => 10
  | some s => if s.length = 0 then 10 else s.length

/-- `handleFieldResize`: clamp the requested size to `[60, canvasWidth - x -
10] × [20, canvasHeight - y - 10]` (as `min (max 60 w) maxW`, so the upper
cap wins when the two conflict) and recompute the font size. -/
def handleFieldResize (canvas : CanvasBounds) (f : Field) (newWidth newHeight : ℚ) : Field :=
  let maxWidth := canvas.width - f.x - 10
  let maxHeight := canvas.height - f.y - 10
  let finalWidth := min (max 60 newWidth) maxWidth
  let finalHeight := min (max 20 newHeight) maxHeight
  { f with
    width := finalWidth
    height := finalHeight
    fontSize := some (calculateDynamicFontSize finalWidth finalHeight f.type
      (contentLenOr10 f.content)) }

/-- A move or resize interaction applied to an existing field. -/
inductive FieldOp where
  | move (dataX dataY : ℚ)
  | resize (newWidth newHeight : ℚ)
deriving DecidableEq, Repr

/-- Dispatch one interaction to its handler. -/
def applyOp (canvas : CanvasBounds) (f : Field) : FieldOp → Field
  | .move dx dy => handleFieldDrag canvas f dx dy
  | .resize nw nh => handleFieldResize canvas f nw nh

/-- A sequence of move/resize interactions after placement. -/
def applyOps (canvas : CanvasBounds) (f : Field) (ops : List FieldOp) : Field :=
  ops.foldl (applyOp canvas) f

/-- The containment property of the spec: the field box lies inside the
rendered page. -/
def contained (canvas : CanvasBounds) (f : Field) : Prop :=
  0 ≤ f.x ∧ 0 ≤ f.y ∧ f.x + f.width ≤ canvas.width ∧ f.y + f.height ≤ canvas.height

/-- Boolean form of `contained`, for concrete evaluation. -/
def containedB (canvas : CanvasBounds) (f : Field) : Bool :=
  decide (0 ≤ f.x) && decide (0 ≤ f.y) &&
  decide (f.x + f.width ≤ canvas.width) && decide (f.y + f.height ≤ canvas.height)

/-- The per-field record built by `finalizeDocument` and sent to the
`generate-absolute-precision-pdf` edge function. -/
structure SignatureOut where
  page : ℕ
  x : ℚ
  y : ℚ
  width : ℚ
  height : ℚ
  type : FieldType
  content : Option String
  font : Option String
  fontSize : Option ℤ
deriving DecidableEq, Repr

/-- The dimension-resolution chain of `finalizeDocument`:
`field.dim || liveMeasurement || constant` with JavaScript falsiness (a
stored or live `0` falls through). -/
def resolveDim (stored live : Option ℚ) (dflt : ℚ) : ℚ :=
  jsOrQ stored (jsOrQ live dflt)

/-- The per-field body of the `signatureFields.map` in `finalizeDocument`:
resolve the four dimensions (stored snapshot, else live measurement, else
595/842), form `scaleX = pdfWidth / canvasWidth` and `scaleY = pdfHeight /
canvasHeight`, and emit the annotation with `x = field.x * scaleX`,
`y = pdfHeight - field.y * scaleY` and every other member passed through. -/
def finalizeSignature (liveCanvas : Option CanvasBounds) (liveDims : Option PdfDims)
    (f : Field) : SignatureOut :=
  let canvasWidth := resolveDim f.canvasWidth (liveCanvas.map CanvasBounds.width) 595
  let canvasHeight := resolveDim f.canvasHeight (liveCanvas.map CanvasBounds.height) 842
  let pdfWidth := resolveDim f.pdfWidth (liveDims.map PdfDims.width) 595
  let pdfHeight := resolveDim f.pdfHeight (liveDims.map PdfDims.height) 842
  let scaleX := pdfWidth / canvasWidth
  let scaleY := pdfHeight / canvasHeight
  { page := f.page
    x := f.x * scaleX
    y := pdfHeight - f.y * scaleY
    width := f.width
    height := f.height
    type := f.type
    content := f.content
    font := f.font
    fontSize := f.fontSize }

/-- The guard of `finalizeDocument`: `!field.content ||
field.content.trim() === ''` (an absent or empty content is falsy;
otherwise whitespace-only content trims to empty). -/
def contentIncomplete (f : Field) : Bool :=
  match f.content with
  | none => true
  | some s => if s = "" then true else jsTrim s == ""

/-- The in-memory signing session: the field collection plus the
`finalizing` flag (`false` while editing). -/
structure Session where
  fields : List Field
  finalizing : Bool
deriving DecidableEq, Repr

/-- Observable outcome of a `finalizeDocument` call: one of the two guard
rejections (each surfaces a `toast.error` and returns early, before
`setFinalizing(true)` and before any network request), or the request
payload handed to the edge function. -/
inductive FinalizeOutcome where
  | emptyFieldSet
  | incompleteField
  | requestSent (signatures : List SignatureOut)
deriving DecidableEq, Repr

/-- `finalizeDocument` up to the point the request is issued: the empty-set
guard, the incomplete-field guard (`filter` + length test as in the
source), then the payload construction.  The session is returned alongside
the outcome; the guards leave it untouched. -/
def finalizeDocument (liveCanvas : Option CanvasBounds) (liveDims : Option PdfDims)
    (s : Session) : Session × FinalizeOutcome :=
  if s.fields.length = 0 then
    (s, .emptyFieldSet)
  else if 0 < (s.fields.filter contentIncomplete).length then
    (s, .incompleteField)
  else
    ({ s with finalizing := true },
     .requestSent (s.fields.map (finalizeSignature liveCanvas liveDims)))

/-! ### The `generate-absolute-precision-pdf` edge function

The signature-processing loop of the edge function, per element.  External
effects are parameters: `dims` is `pdfDoc.getPage(i).getSize()`, `widthOf`
is `font.widthOfTextAtSize`, and the Boolean oracles `drawFails` /
`fallbackFails` model whether the pdf-lib drawing calls inside the `try`
(respectively the `catch`'s fallback) throw for a given signature. -/

/-- One signature of the edge-function request body. -/
structure EdgeSignature where
  page : ℤ
  x : ℚ
  y : ℚ
  width : ℚ
  height : ℚ
  content : String
  font : Option String
  fontSize : Option ℚ
deriving DecidableEq, Repr

/-- What the loop did with one signature. -/
inductive SigAction where
  | skipped
  | drawn (content : String) (x y size : ℚ) (font : String)
  | fallbackDrawn (content : String) (x y size : ℚ) (font : String)
  | dropped
deriving DecidableEq, Repr

/-- The skip guard inside the loop's `try`:
`!signature.content || signature.page < 1 || signature.page > pageCount`. -/
def invalidSig (pageCount : ℕ) (s : EdgeSignature) : Bool :=
  s.content == "" || decide (s.page < 1) || decide ((pageCount : ℤ) < s.page)

/-- One iteration of the edge function's `for (const signature of
signatures)` loop: skip invalid signatures; otherwise clamp the coordinates
into the page margins, shrink the X origin against the measured text width,
and draw with the requested font at the requested size; if drawing throws,
the `catch` block draws with the default `times-roman-italic` font under a
coarser clamp; if that also throws, the error is logged and the signature
is dropped. -/
def processSignature (pageCount : ℕ) (dims : ℕ → ℚ × ℚ) (widthOf : String → ℚ → ℚ)
    (drawFails fallbackFails : EdgeSignature → Bool) (s : EdgeSignature) : SigAction :=
  if invalidSig pageCount s then .skipped
  else if drawFails s then
    if fallbackFails s then .dropped
    else
      let pw := (dims (s.page - 1).toNat).1
      let ph := (dims (s.page - 1).toNat).2
      let singleLineContent := normalizeContent s.content
      let fallbackFontSize := jsOrQ s.fontSize 16
      .fallbackDrawn singleLineContent
        (max 15 (min s.x (pw - 150))) (max 20 (min s.y (ph - 30)))
        fallbackFontSize "times-roman-italic"
  else
    let pw := (dims (s.page - 1).toNat).1
    let ph := (dims (s.page - 1).toNat).2
    let finalX := max 10 (min s.x (pw - 50))
    let finalY := max 15 (min s.y (ph - 15))
    let fontSize := jsOrQ s.fontSize 16
    let singleLineContent := normalizeContent s.content
    let textWidth := widthOf singleLineContent fontSize
    let adjustedX := min finalX (pw - textWidth - 10)
    .drawn singleLineContent adjustedX finalY fontSize (jsOrStr s.font "times-roman-italic")

/-- The edge function's response body (after the loop, save and upload the
document — external I/O — and answer `success: true` unconditionally). -/
structure EdgeResponse where
  success : Bool
  actions : List SigAction
deriving DecidableEq, Repr

/-- The request-level behaviour of the edge function once the document is
loaded: process every signature independently and report success. -/
def serveAbsolutePrecision (pageCount : ℕ) (dims : ℕ → ℚ × ℚ) (widthOf : String → ℚ → ℚ)
    (drawFails fallbackFails : EdgeSignature → Bool) (sigs : List EdgeSignature) :
    EdgeResponse :=
  { success := true
    actions := sigs.map (processSignature pageCount dims widthOf drawFails fallbackFails) }

/-! ### Helper lemmas -/

/-- A JavaScript `||`-chain with a nonzero final default never yields zero. -/
theorem jsOrQ_ne_zero (a : Option ℚ) (b : ℚ) (hb : b ≠ 0) : jsOrQ a b ≠ 0 := by
  cases a with
  | none => simpa [jsOrQ] using hb
  | some v =>
    by_cases hv : v = 0 <;> simp [jsOrQ, hv, hb]

/-- The stored-dimension resolution chain never yields zero when its final
constant is nonzero. -/
theorem resolveDim_ne_zero (a b : Option ℚ) (c : ℚ) (hc : c ≠ 0) : resolveDim a b c ≠ 0 :=
  jsOrQ_ne_zero a _ (jsOrQ_ne_zero b c hc)

/-- JavaScript rounding is monotone. -/
theorem jsRound_mono {a b : ℚ} (h : a ≤ b) : jsRound a ≤ jsRound b :=
  Int.floor_le_floor (by linarith)

/-- The height-based base font size is monotone in the box height. -/
theorem baseFontSize_mono (t : FieldType) {h1 h2 : ℚ} (hh : h1 ≤ h2) :
    baseFontSize h1 t ≤ baseFontSize h2 t := by
  cases t <;>
    exact max_le_max le_rfl
      (min_le_min (mul_le_mul_of_nonneg_right hh (by norm_num)) le_rfl)

/-! ### C1 — finalization emits the snapshot-scaled coordinates -/

/-- C1: for a field finalized with a full stored viewport snapshot (all four
dimensions present and nonzero), the emitted annotation has
`x = field.x * (pdfWidth / canvasWidth)` and
`y = pdfHeight - field.y * (pdfHeight / canvasHeight)`, and `page`,
`width`, `height`, `type`, `content`, `font` and `fontSize` pass through
unchanged. -/
theorem finalizeSignature_snapshot_transform (f : Field) (cw ch pw ph : ℚ)
    (lc : Option CanvasBounds) (ld : Option PdfDims)
    (hcw : f.canvasWidth = some cw) (hch : f.canvasHeight = some ch)
    (hpw : f.pdfWidth = some pw) (hph : f.pdfHeight = some ph)
    (hcw0 : cw ≠ 0) (hch0 : ch ≠ 0) (hpw0 : pw ≠ 0) (hph0 : ph ≠ 0) :
    (finalizeSignature lc ld f).x = f.x * (pw / cw) ∧
    (finalizeSignature lc ld f).y = ph - f.y * (ph / ch) ∧
    (finalizeSignature lc ld f).page = f.page ∧
    (finalizeSignature lc ld f).width = f.width ∧
    (finalizeSignature lc ld f).height = f.height ∧
    (finalizeSignature lc ld f).type = f.type ∧
    (finalizeSignature lc ld f).content = f.content ∧
    (finalizeSignature lc ld f).font = f.font ∧
    (finalizeSignature lc ld f).fontSize = f.fontSize := by
  simp [finalizeSignature, resolveDim, jsOrQ, hcw, hch, hpw, hph, hcw0, hch0, hpw0, hph0]

/-- C1 witness: the spec's scenario.  Viewport snapshot
`{renderedWidth: 600, renderedHeight: 800, nativeWidth: 595, nativeHeight:
842}`, a name field at `(100, 200)` with content `"Jane Doe"`; finalization
emits exactly `x = 595/6` (≈ 99.17) and `y = 1263/2 = 631.5` and passes the
other members through. -/
theorem finalizeSignature_snapshot_transform_witness :
    (finalizeSignature none none
      ⟨"1", .name, 100, 200, 1, 150, 30, some "Jane Doe", some "helvetica",
        some 600, some 800, some 595, some 842, some 14⟩).x = 595/6 ∧
    (finalizeSignature none none
      ⟨"1", .name, 100, 200, 1, 150, 30, some "Jane Doe", some "helvetica",
        some 600, some 800, some 595, some 842, some 14⟩).y = 1263/2 ∧
    (finalizeSignature none none
      ⟨"1", .name, 100, 200, 1, 150, 30, some "Jane Doe", some "helvetica",
        some 600, some 800, some 595, some 842, some 14⟩).content = some "Jane Doe" := by
  have h := finalizeSignature_snapshot_transform
    ⟨"1", .name, 100, 200, 1, 150, 30, some "Jane Doe", some "helvetica",
      some 600, some 800, some 595, some 842, some 14⟩
    600 800 595 842 none none rfl rfl rfl rfl
    (by norm_num) (by norm_num) (by norm_num) (by norm_num)
  refine ⟨?_, ?_, h.2.2.2.2.2.2.1⟩
  · rw [h.1]; norm_num
  · rw [h.2.1]; norm_num

/-! ### C2 — scale invariance of the coordinate conversion -/

/-- C2: scaling the click point and the rendered dimensions by the same
positive factor `k` leaves the converted PDF-space coordinates unchanged. -/
theorem convert_scale_invariant (px py k rw rh nw nh : ℚ)
    (hk : 0 < k) (hrw : rw ≠ 0) (hrh : rh ≠ 0) :
    (convertToAbsoluteCoordinates (k * px) (k * py)
        (some ⟨rw * k, rh * k⟩) (some ⟨nw, nh⟩)).absoluteX =
      (convertToAbsoluteCoordinates px py (some ⟨rw, rh⟩) (some ⟨nw, nh⟩)).absoluteX ∧
    (convertToAbsoluteCoordinates (k * px) (k * py)
        (some ⟨rw * k, rh * k⟩) (some ⟨nw, nh⟩)).absoluteY =
      (convertToAbsoluteCoordinates px py (some ⟨rw, rh⟩) (some ⟨nw, nh⟩)).absoluteY := by
  have hk0 : k ≠ 0 := ne_of_gt hk
  constructor
  · show k * px * (nw / (rw * k)) = px * (nw / rw)
    field_simp
    ring
  · show nh - k * py * (nh / (rh * k)) = nh - py * (nh / rh)
    field_simp
    ring

/-- C2 witness: doubling the zoom (rendered `600×800` → `1200×1600`) and the
click point `(100, 200) → (200, 400)` gives the same PDF coordinates. -/
theorem convert_scale_invariant_witness :
    (0 : ℚ) < 2 ∧ (600 : ℚ) ≠ 0 ∧ (800 : ℚ) ≠ 0 ∧
    ((convertToAbsoluteCoordinates (2 * 100) (2 * 200)
        (some ⟨600 * 2, 800 * 2⟩) (some ⟨595, 842⟩)).absoluteX =
      (convertToAbsoluteCoordinates 100 200 (some ⟨600, 800⟩) (some ⟨595, 842⟩)).absoluteX ∧
    (convertToAbsoluteCoordinates (2 * 100) (2 * 200)
        (some ⟨600 * 2, 800 * 2⟩) (some ⟨595, 842⟩)).absoluteY =
      (convertToAbsoluteCoordinates 100 200 (some ⟨600, 800⟩) (some ⟨595, 842⟩)).absoluteY) :=
  ⟨by norm_num, by norm_num, by norm_num,
   convert_scale_invariant 100 200 2 600 800 595 842 (by norm_num) (by norm_num) (by norm_num)⟩

/-! ### C5 — finalization guards -/

/-- C5: with an empty field set or any field whose content is absent, empty,
or whitespace-only, `finalizeDocument` surfaces the corresponding error
outcome and returns before sending anything: the session (field collection
and editing status) is unchanged and the outcome is one of the two guard
errors, never a sent request. -/
theorem finalizeDocument_blocks_incomplete (lc : Option CanvasBounds) (ld : Option PdfDims)
    (s : Session) (h : s.fields = [] ∨ ∃ f ∈ s.fields, contentIncomplete f = true) :
    (finalizeDocument lc ld s).1 = s ∧
    ((finalizeDocument lc ld s).2 = .emptyFieldSet ∨
      (finalizeDocument lc ld s).2 = .incompleteField) := by
  by_cases hlen : s.fields.length = 0
  · simp [finalizeDocument, hlen]
  · rcases h with h | ⟨f, hf, hinc⟩
    · exact absurd (by simp [h]) hlen
    · have hpos : 0 < (s.fields.filter contentIncomplete).length :=
        List.length_pos.mpr (List.ne_nil_of_mem (List.mem_filter.mpr ⟨hf, hinc⟩))
      simp [finalizeDocument, hlen, hpos]

/-- C5 witness: a session holding one contentless name field is rejected
with the session unchanged. -/
theorem finalizeDocument_blocks_incomplete_witness :
    ((⟨[⟨"1", .name, 100, 200, 1, 150, 30, none, none, none, none, none, none, none⟩],
        false⟩ : Session).fields = [] ∨
      ∃ f ∈ (⟨[⟨"1", .name, 100, 200, 1, 150, 30, none, none, none, none, none, none, none⟩],
        false⟩ : Session).fields, contentIncomplete f = true) ∧
    (finalizeDocument none none
      ⟨[⟨"1", .name, 100, 200, 1, 150, 30, none, none, none, none, none, none, none⟩],
        false⟩).1 =
      ⟨[⟨"1", .name, 100, 200, 1, 150, 30, none, none, none, none, none, none, none⟩],
        false⟩ ∧
    ((finalizeDocument none none
      ⟨[⟨"1", .name, 100, 200, 1, 150, 30, none, none, none, none, none, none, none⟩],
        false⟩).2 = .emptyFieldSet ∨
      (finalizeDocument none none
      ⟨[⟨"1", .name, 100, 200, 1, 150, 30, none, none, none, none, none, none, none⟩],
        false⟩).2 = .incompleteField) := by
  have hh : (⟨[⟨"1", .name, 100, 200, 1, 150, 30, none, none, none, none, none, none, none⟩],
      false⟩ : Session).fields = [] ∨
      ∃ f ∈ (⟨[⟨"1", .name, 100, 200, 1, 150, 30, none, none, none, none, none, none,
        none⟩], false⟩ : Session).fields, contentIncomplete f = true :=
    Or.inr ⟨⟨"1", .name, 100, 200, 1, 150, 30, none, none, none, none, none, none, none⟩,
      by simp, by decide⟩
  have h := finalizeDocument_blocks_incomplete none none
    ⟨[⟨"1", .name, 100, 200, 1, 150, 30, none, none, none, none, none, none, none⟩],
      false⟩ hh
  exact ⟨hh, h.1, h.2⟩

/-! ### C9 — finalization never divides by a stored zero -/

/-- C9: the four dimension divisors of `finalizeDocument` are always
nonzero: a missing or zero stored dimension falls through the `||` chain to
the live measurement and then to the nonzero constants `595`/`842`, for any
field and any (possibly absent, possibly zero) live measurements. -/
theorem finalize_denominators_nonzero (f : Field) (lc : Option CanvasBounds)
    (ld : Option PdfDims) :
    resolveDim f.canvasWidth (lc.map CanvasBounds.width) 595 ≠ 0 ∧
    resolveDim f.canvasHeight (lc.map CanvasBounds.height) 842 ≠ 0 ∧
    resolveDim f.pdfWidth (ld.map PdfDims.width) 595 ≠ 0 ∧
    resolveDim f.pdfHeight (ld.map PdfDims.height) 842 ≠ 0 :=
  ⟨resolveDim_ne_zero _ _ _ (by norm_num), resolveDim_ne_zero _ _ _ (by norm_num),
   resolveDim_ne_zero _ _ _ (by norm_num), resolveDim_ne_zero _ _ _ (by norm_num)⟩

/-- C9 witness: a field whose whole stored snapshot is zero (the degenerate
conversion fallback), finalized with no live measurement available, still
has all four divisors nonzero. -/
theorem finalize_denominators_nonzero_witness :
    resolveDim (Field.canvasWidth
        ⟨"1", .name, 100, 200, 1, 150, 30, none, none, some 0, some 0, some 0, some 0, none⟩)
      ((none : Option CanvasBounds).map CanvasBounds.width) 595 ≠ 0 ∧
    resolveDim (Field.canvasHeight
        ⟨"1", .name, 100, 200, 1, 150, 30, none, none, some 0, some 0, some 0, some 0, none⟩)
      ((none : Option CanvasBounds).map CanvasBounds.height) 842 ≠ 0 ∧
    resolveDim (Field.pdfWidth
        ⟨"1", .name, 100, 200, 1, 150, 30, none, none, some 0, some 0, some 0, some 0, none⟩)
      ((none : Option PdfDims).map PdfDims.width) 595 ≠ 0 ∧
    resolveDim (Field.pdfHeight
        ⟨"1", .name, 100, 200, 1, 150, 30, none, none, some 0, some 0, some 0, some 0, none⟩)
      ((none : Option PdfDims).map PdfDims.height) 842 ≠ 0 :=
  finalize_denominators_nonzero
    ⟨"1", .name, 100, 200, 1, 150, 30, none, none, some 0, some 0, some 0, some 0, none⟩
    none none

/-! ### C4 — degenerate-viewport handling of the conversion -/

/-- C4 counterexample: a canvas that is present but measured with zero width
(e.g. before layout) is not treated as "not ready": the conversion divides
`595 / 0` and the resulting `absoluteX` is Infinity, a non-finite coordinate
returned to the caller. -/
theorem convert_zero_width_inf_cex :
    (convertToAbsoluteCoordinatesJS 100 200 (some ⟨0, 800⟩) (some ⟨595, 842⟩)).absoluteX =
      JSNum.inf ∧
    (convertToAbsoluteCoordinatesJS 100 200
      (some ⟨0, 800⟩) (some ⟨595, 842⟩)).absoluteX.isFinite = false := by
  constructor <;> rfl

/-- C4 amended: only an unavailable (`null`) canvas bounds or PDF dimensions
record is handled specially — the conversion then performs no division and
returns the input point with a zeroed dimension snapshot (and the placement
caller independently defers on a `null` canvas).  When both measurements are
present with nonzero rendered width and height, the computed coordinates are
finite.  A present measurement with zero width or height is not checked
(see the counterexample). -/
theorem convert_not_ready_and_finite (cx cy : ℚ) (b : CanvasBounds) (d : PdfDims)
    (hbw : b.width ≠ 0) (hbh : b.height ≠ 0) :
    convertToAbsoluteCoordinatesJS cx cy none (some d) = ⟨.fin cx, .fin cy, 0, 0, 0, 0⟩ ∧
    convertToAbsoluteCoordinatesJS cx cy (some b) none = ⟨.fin cx, .fin cy, 0, 0, 0, 0⟩ ∧
    convertToAbsoluteCoordinatesJS cx cy none none = ⟨.fin cx, .fin cy, 0, 0, 0, 0⟩ ∧
    (convertToAbsoluteCoordinatesJS cx cy (some b) (some d)).absoluteX.isFinite = true ∧
    (convertToAbsoluteCoordinatesJS cx cy (some b) (some d)).absoluteY.isFinite = true := by
  refine ⟨rfl, rfl, rfl, ?_, ?_⟩ <;>
    simp [convertToAbsoluteCoordinatesJS, JSNum.div, JSNum.mul, JSNum.sub, JSNum.isFinite,
      hbw, hbh]

/-- C4 witness: with the `600×800` canvas and `595×842` page both measured,
the conversion of `(100, 200)` produces finite coordinates, and each
unavailable-measurement case returns the untransformed point. -/
theorem convert_not_ready_and_finite_witness :
    (600 : ℚ) ≠ 0 ∧ (800 : ℚ) ≠ 0 ∧
    (convertToAbsoluteCoordinatesJS 100 200 none (some ⟨595, 842⟩) =
      ⟨.fin 100, .fin 200, 0, 0, 0, 0⟩ ∧
    convertToAbsoluteCoordinatesJS 100 200 (some ⟨600, 800⟩) none =
      ⟨.fin 100, .fin 200, 0, 0, 0, 0⟩ ∧
    convertToAbsoluteCoordinatesJS 100 200 none none = ⟨.fin 100, .fin 200, 0, 0, 0, 0⟩ ∧
    (convertToAbsoluteCoordinatesJS 100 200
      (some ⟨600, 800⟩) (some ⟨595, 842⟩)).absoluteX.isFinite = true ∧
    (convertToAbsoluteCoordinatesJS 100 200
      (some ⟨600, 800⟩) (some ⟨595, 842⟩)).absoluteY.isFinite = true) :=
  ⟨by norm_num, by norm_num,
   convert_not_ready_and_finite 100 200 ⟨600, 800⟩ ⟨595, 842⟩ (by norm_num) (by norm_num)⟩

/-! ### C6 — minimum resize dimensions -/

/-- C6 counterexample: resizing a field placed at `x = 550` on a `600×400`
canvas requests width `100` but the canvas cap `600 - 550 - 10 = 40` wins,
so the result has width `40 < 60`. -/
theorem resize_min_width_cex :
    (handleFieldResize ⟨600, 400⟩
      ⟨"f", .text, 550, 350, 1, 60, 20, some "ab", none, none, none, none, none, none⟩
      100 100).width = 40 ∧ (40 : ℚ) < 60 := by
  constructor
  · norm_num [handleFieldResize, min_def, max_def]
  · norm_num

/-- C6 amended: the resize result's width is `min (max 60 newWidth)
(canvasWidth - x - 10)` and its height `min (max 20 newHeight)
(canvasHeight - y - 10)`, so the `60×20` floor holds exactly when the
canvas caps from the field's position leave room for it. -/
theorem resize_respects_min_size (canvas : CanvasBounds) (f : Field) (nw nh : ℚ)
    (hw : 60 ≤ canvas.width - f.x - 10) (hh : 20 ≤ canvas.height - f.y - 10) :
    60 ≤ (handleFieldResize canvas f nw nh).width ∧
    20 ≤ (handleFieldResize canvas f nw nh).height := by
  constructor
  · exact le_min (le_max_left _ _) hw
  · exact le_min (le_max_left _ _) hh

/-- C6 witness: a field at the origin of a `600×800` canvas resized to the
tiny request `5×5` still ends at least `60×20`. -/
theorem resize_respects_min_size_witness :
    (60 : ℚ) ≤ 600 - 0 - 10 ∧ (20 : ℚ) ≤ 800 - 0 - 10 ∧
    (60 ≤ (handleFieldResize ⟨600, 800⟩
      ⟨"f", .text, 0, 0, 1, 120, 30, none, none, none, none, none, none, none⟩ 5 5).width ∧
    20 ≤ (handleFieldResize ⟨600, 800⟩
      ⟨"f", .text, 0, 0, 1, 120, 30, none, none, none, none, none, none, none⟩ 5 5).height) :=
  ⟨by norm_num, by norm_num,
   resize_respects_min_size ⟨600, 800⟩
     ⟨"f", .text, 0, 0, 1, 120, 30, none, none, none, none, none, none, none⟩ 5 5
     (by norm_num) (by norm_num)⟩

/-! ### C7 — nominal content length for empty content -/

/-- C7 counterexample: `updateFieldContent` with empty content passes the
actual length `0`, not the nominal `10`: for a `60×20` text field the
empty-content font size is `11` (pure height-based size, no width-fit
correction) while the 10-character size of the same box is `8`. -/
theorem empty_content_font_size_cex :
    (updateFieldContent
      ⟨"f", .text, 0, 0, 1, 60, 20, none, none, none, none, none, none, none⟩ "").fontSize =
      some 11 ∧
    calculateDynamicFontSize 60 20 FieldType.text 10 = 8 ∧
    ((updateFieldContent
      ⟨"f", .text, 0, 0, 1, 60, 20, none, none, none, none, none, none, none⟩ "").fontSize ==
      some (calculateDynamicFontSize 60 20 FieldType.text 10)) = false := by
  have h1 : (updateFieldContent
      ⟨"f", .text, 0, 0, 1, 60, 20, none, none, none, none, none, none, none⟩ "").fontSize =
      some 11 := by
    norm_num [updateFieldContent, calculateDynamicFontSize, baseFontSize, jsRound,
      show normalizeContent "" = "" from rfl, min_def, max_def]
  have h2 : calculateDynamicFontSize 60 20 FieldType.text 10 = 8 := by
    norm_num [calculateDynamicFontSize, baseFontSize, jsRound, min_def, max_def]
  refine ⟨h1, h2, ?_⟩
  rw [h1, h2]
  rfl

/-- C7 amended: the nominal length 10 for empty content applies on resize
(`content?.length || 10` treats the empty content's length `0` as falsy)
but not on `setContent`, which passes the normalised content's actual
length — so an empty `setContent` computes the size with length `0`,
skipping the width-fit estimate entirely. -/
theorem empty_content_nominal_length (canvas : CanvasBounds) (f : Field) (nw nh : ℚ)
    (s : String) (hc : f.content = none ∨ f.content = some "")
    (hs : normalizeContent s = "") :
    (handleFieldResize canvas f nw nh).fontSize =
      some (calculateDynamicFontSize (min (max 60 nw) (canvas.width - f.x - 10))
        (min (max 20 nh) (canvas.height - f.y - 10)) f.type 10) ∧
    (updateFieldContent f s).fontSize =
      some (calculateDynamicFontSize f.width f.height f.type 0) := by
  constructor
  · rcases hc with h | h <;> simp [handleFieldResize, contentLenOr10, h]
  · simp [updateFieldContent, hs]

/-- C7 witness: a `120×30` text field with stored empty content, resized
with request `100×40` on a `600×800` canvas, gets the 10-character size for
the clamped box; setting its content to a whitespace-only string computes
the length-0 size. -/
theorem empty_content_nominal_length_witness :
    ((⟨"f", .text, 0, 0, 1, 120, 30, some "", none, none, none, none, none, none⟩ :
        Field).content = none ∨
      (⟨"f", .text, 0, 0, 1, 120, 30, some "", none, none, none, none, none, none⟩ :
        Field).content = some "") ∧
    normalizeContent " " = "" ∧
    ((handleFieldResize ⟨600, 800⟩
        ⟨"f", .text, 0, 0, 1, 120, 30, some "", none, none, none, none, none, none⟩
        100 40).fontSize =
      some (calculateDynamicFontSize (min (max 60 100) ((600 : ℚ) - 0 - 10))
        (min (max 20 40) ((800 : ℚ) - 0 - 10)) FieldType.text 10) ∧
    (updateFieldContent
        ⟨"f", .text, 0, 0, 1, 120, 30, some "", none, none, none, none, none, none⟩
        " ").fontSize =
      some (calculateDynamicFontSize 120 30 FieldType.text 0)) :=
  ⟨Or.inr rfl, rfl,
   empty_content_nominal_length ⟨600, 800⟩
     ⟨"f", .text, 0, 0, 1, 120, 30, some "", none, none, none, none, none, none⟩
     100 40 " " (Or.inr rfl) rfl⟩

/-! ### C8 — font size is monotone in box height -/

/-- C8: for a fixed box width, field type and content length, the computed
dynamic font size never decreases when the box height grows. -/
theorem fontSize_monotone_in_height (w : ℚ) (t : FieldType) (L : ℕ) (h1 h2 : ℚ)
    (hh : h1 ≤ h2) :
    calculateDynamicFontSize w h1 t L ≤ calculateDynamicFontSize w h2 t L := by
  have hb : baseFontSize h1 t ≤ baseFontSize h2 t := baseFontSize_mono t hh
  unfold calculateDynamicFontSize
  apply jsRound_mono
  by_cases c1 : w - 16 < (L : ℚ) * (baseFontSize h1 t * (3/5))
  · have c2 : w - 16 < (L : ℚ) * (baseFontSize h2 t * (3/5)) :=
      lt_of_lt_of_le c1 (mul_le_mul_of_nonneg_left (by linarith) (Nat.cast_nonneg L))
    rw [if_pos c1, if_pos c2]
  · by_cases c2 : w - 16 < (L : ℚ) * (baseFontSize h2 t * (3/5))
    · rw [if_neg c1, if_pos c2]
      rcases Nat.eq_zero_or_pos L with h0 | hpos
      · subst h0
        simp only [Nat.cast_zero, zero_mul] at c1 c2
        exact absurd c2 c1
      · have hL : (0 : ℚ) < (L : ℚ) * (3/5) := by
          have : (0 : ℚ) < (L : ℚ) := by exact_mod_cast hpos
          nlinarith
        have hle : baseFontSize h1 t ≤ (w - 16) / ((L : ℚ) * (3/5)) := by
          rw [le_div_iff₀ hL]
          nlinarith [not_lt.mp c1]
        exact le_trans hle (le_max_right _ _)
    · rw [if_neg c1, if_neg c2]
      exact hb

/-- C8 witness: a `200`-wide name box with 8 characters of content: growing
the height from `30` to `60` does not shrink the font size (it grows from
`18` to the cap `24`). -/
theorem fontSize_monotone_in_height_witness :
    (30 : ℚ) ≤ 60 ∧
    calculateDynamicFontSize 200 30 FieldType.name 8 ≤
      calculateDynamicFontSize 200 60 FieldType.name 8 :=
  ⟨by norm_num, fontSize_monotone_in_height 200 .name 8 30 60 (by norm_num)⟩

/-! ### C3 — containment under place/move/resize -/

/-- C3 counterexample: on a `100×100` rendered canvas (nonzero dimensions),
a placement click at `(50, 50)` for a text field creates the field at
`x = 0` with its default width `120`, so `x + width = 120 > 100` already
violates containment after the one-operation sequence `[place]`. -/
theorem placement_containment_cex :
    ((handlePdfClick ⟨100, 100⟩ none FieldType.text "f" 1 "d" 50 50).map
      (containedB ⟨100, 100⟩)) = some false := by
  norm_num [handlePdfClick, containedB, convertToAbsoluteCoordinates, calculateDynamicFontSize,
    baseFontSize, jsRound, defaultFieldSize, min_def, max_def,
    show FieldType.text ≠ FieldType.date from by decide]

/-- The inductive geometry invariant: containment plus the bound that each
box dimension fits the canvas on its own.  Placement establishes the
dimension bound because the default box is assumed to fit, and it is what
lets a move whose 5px-padded cap goes negative (position pinned to `0` by
`Math.max`) keep the box inside. -/
def geomInv (canvas : CanvasBounds) (f : Field) : Prop :=
  0 ≤ f.x ∧ 0 ≤ f.y ∧ f.x + f.width ≤ canvas.width ∧ f.y + f.height ≤ canvas.height ∧
  f.width ≤ canvas.width ∧ f.height ≤ canvas.height

/-- Placement establishes the geometry invariant whenever the type's default
box fits the canvas at all: if the 10px-padded clamp target
`canvasWidth - fieldWidth - 10` is nonnegative the box lands with 10px
slack, and if it is negative `Math.max(0, ...)` pins the box to the origin,
where `fieldWidth ≤ canvasWidth` keeps it contained. -/
theorem geomInv_place (canvas : CanvasBounds) (dims : Option PdfDims) (t : FieldType)
    (fid : String) (pg : ℕ) (dt : String) (cx cy : ℚ) (f : Field)
    (hw : (defaultFieldSize t).1 ≤ canvas.width)
    (hh : (defaultFieldSize t).2 ≤ canvas.height)
    (hp : handlePdfClick canvas dims t fid pg dt cx cy = some f) : geomInv canvas f := by
  have hx : max 0 (min cx (canvas.width - (defaultFieldSize t).1 - 10)) ≤
      canvas.width - (defaultFieldSize t).1 :=
    max_le (by linarith) (le_trans (min_le_right _ _) (by linarith))
  have hy : max 0 (min cy (canvas.height - (defaultFieldSize t).2 - 10)) ≤
      canvas.height - (defaultFieldSize t).2 :=
    max_le (by linarith) (le_trans (min_le_right _ _) (by linarith))
  unfold handlePdfClick at hp
  split at hp
  · exact absurd hp (by simp)
  · replace hp := Option.some.inj hp
    split at hp <;> subst hp <;>
      exact ⟨le_max_left _ _, le_max_left _ _, by dsimp only; linarith, by dsimp only; linarith,
        hw, hh⟩

/-- Dragging preserves the geometry invariant: the clamp target
`canvasWidth - width - 5` is either an in-canvas cap or negative, in which
case `Math.max(0, ...)` pins the box to `0` where `width ≤ canvasWidth`
keeps it contained. -/
theorem geomInv_move (canvas : CanvasBounds) (f : Field) (dx dy : ℚ)
    (h : geomInv canvas f) : geomInv canvas (handleFieldDrag canvas f dx dy) := by
  obtain ⟨_, _, _, _, h5, h6⟩ := h
  have hx : max 0 (min dx (canvas.width - f.width - 5)) ≤ canvas.width - f.width :=
    max_le (by linarith) (le_trans (min_le_right _ _) (by linarith))
  have hy : max 0 (min dy (canvas.height - f.height - 5)) ≤ canvas.height - f.height :=
    max_le (by linarith) (le_trans (min_le_right _ _) (by linarith))
  exact ⟨le_max_left _ _, le_max_left _ _, by dsimp [handleFieldDrag]; linarith,
    by dsimp [handleFieldDrag]; linarith, h5, h6⟩

/-- Resizing preserves the geometry invariant: both caps subtract the
current position and 10, so the new dimensions stay within the canvas from
the unchanged position. -/
theorem geomInv_resize (canvas : CanvasBounds) (f : Field) (nw nh : ℚ)
    (h : geomInv canvas f) : geomInv canvas (handleFieldResize canvas f nw nh) := by
  obtain ⟨h1, h2, _, _, _, _⟩ := h
  have hx : min (max 60 nw) (canvas.width - f.x - 10) ≤ canvas.width - f.x - 10 :=
    min_le_right _ _
  have hy : min (max 20 nh) (canvas.height - f.y - 10) ≤ canvas.height - f.y - 10 :=
    min_le_right _ _
  exact ⟨h1, h2, by dsimp [handleFieldResize]; linarith, by dsimp [handleFieldResize]; linarith,
    by dsimp [handleFieldResize]; linarith, by dsimp [handleFieldResize]; linarith⟩

/-- The geometry invariant is preserved by any sequence of move/resize
interactions. -/
theorem geomInv_ops (canvas : CanvasBounds) (f : Field) (ops : List FieldOp)
    (h : geomInv canvas f) : geomInv canvas (applyOps canvas f ops) := by
  induction ops generalizing f with
  | nil => exact h
  | cons op rest ih =>
    cases op with
    | move dx dy => exact ih _ (geomInv_move canvas f dx dy h)
    | resize nw nh => exact ih _ (geomInv_resize canvas f nw nh h)

/-- C3 amended: containment holds for every field obtained by a placement
click followed by any sequence of move and resize interactions against a
fixed canvas, provided the placed type's default box fits the canvas
(`renderedWidth ≥ defaultWidth` and `renderedHeight ≥ defaultHeight`).
This bound is exact: when the default width exceeds the canvas width
(counterexample: 120 > 100) the placement itself already violates
containment, while in the band `defaultWidth ≤ renderedWidth <
defaultWidth + 10` the `Math.max(0, ...)` pin keeps the box inside. -/
theorem placed_fields_contained (canvas : CanvasBounds) (dims : Option PdfDims)
    (t : FieldType) (fid : String) (pg : ℕ) (dt : String) (cx cy : ℚ) (ops : List FieldOp)
    (f : Field)
    (hw : (defaultFieldSize t).1 ≤ canvas.width)
    (hh : (defaultFieldSize t).2 ≤ canvas.height)
    (hp : handlePdfClick canvas dims t fid pg dt cx cy = some f) :
    contained canvas (applyOps canvas f ops) := by
  have h := geomInv_ops canvas f ops (geomInv_place canvas dims t fid pg dt cx cy f hw hh hp)
  exact ⟨h.1, h.2.1, h.2.2.1, h.2.2.2.1⟩

/-- C3 witness: a text field (default `120×30`) placed on a `125×35` canvas
— inside the band where the 10px-padded clamp target is negative and the
box is pinned to the origin — then dragged far out of bounds and resized
with an oversized request, remains contained throughout. -/
theorem placed_fields_contained_witness :
    (defaultFieldSize FieldType.text).1 ≤ (125 : ℚ) ∧
    (defaultFieldSize FieldType.text).2 ≤ (35 : ℚ) ∧
    contained ⟨125, 35⟩
      (applyOps ⟨125, 35⟩
        ⟨"1", .text, 0, 0, 1, 120, 30, none, none, some 0, some 0, some 0, some 0,
          some (calculateDynamicFontSize 120 30 FieldType.text 10)⟩
        [.move 5000 5000, .resize 9000 9000]) := by
  have hw : (defaultFieldSize FieldType.text).1 ≤ ((⟨125, 35⟩ : CanvasBounds)).width := by
    norm_num [defaultFieldSize]
  have hh : (defaultFieldSize FieldType.text).2 ≤ ((⟨125, 35⟩ : CanvasBounds)).height := by
    norm_num [defaultFieldSize]
  have hp : handlePdfClick ⟨125, 35⟩ none FieldType.text "1" 1 "d" 50 20 =
      some ⟨"1", .text, 0, 0, 1, 120, 30, none, none, some 0, some 0, some 0, some 0,
        some (calculateDynamicFontSize 120 30 FieldType.text 10)⟩ := by
    norm_num [handlePdfClick, convertToAbsoluteCoordinates, defaultFieldSize, min_def, max_def,
      show FieldType.text ≠ FieldType.date from by decide]
  exact ⟨hw, hh,
    placed_fields_contained ⟨125, 35⟩ none FieldType.text "1" 1 "d" 50 20
      [.move 5000 5000, .resize 9000 9000]
      ⟨"1", .text, 0, 0, 1, 120, 30, none, none, some 0, some 0, some 0, some 0,
        some (calculateDynamicFontSize 120 30 FieldType.text 10)⟩
      hw hh hp⟩

/-! ### C10 — per-signature independence of the edge function -/

/-- C10: the edge function processes each signature of the request
independently: the response's action list is the elementwise image of the
request list; a signature with empty content or an out-of-range page is
skipped (`continue`) without affecting the rest; a signature whose drawing
throws is drawn by the `catch` fallback with the default
`times-roman-italic` font instead of failing the request; and the response
reports `success: true` regardless of how many signatures were skipped. -/
theorem edge_loop_independent (pageCount : ℕ) (dims : ℕ → ℚ × ℚ)
    (widthOf : String → ℚ → ℚ) (drawFails fallbackFails : EdgeSignature → Bool)
    (sigs : List EdgeSignature) :
    (serveAbsolutePrecision pageCount dims widthOf drawFails fallbackFails sigs).success =
      true ∧
    (serveAbsolutePrecision pageCount dims widthOf drawFails fallbackFails sigs).actions =
      sigs.map (processSignature pageCount dims widthOf drawFails fallbackFails) ∧
    (∀ s : EdgeSignature, (s.content = "" ∨ s.page < 1 ∨ (pageCount : ℤ) < s.page) →
      processSignature pageCount dims widthOf drawFails fallbackFails s = .skipped) ∧
    (∀ s : EdgeSignature, invalidSig pageCount s = false → drawFails s = true →
      fallbackFails s = false →
      processSignature pageCount dims widthOf drawFails fallbackFails s =
        .fallbackDrawn (normalizeContent s.content)
          (max 15 (min s.x ((dims (s.page - 1).toNat).1 - 150)))
          (max 20 (min s.y ((dims (s.page - 1).toNat).2 - 30)))
          (jsOrQ s.fontSize 16) "times-roman-italic") := by
  refine ⟨rfl, rfl, ?_, ?_⟩
  · intro s hs
    have hinv : invalidSig pageCount s = true := by
      simp only [invalidSig, Bool.or_eq_true, beq_iff_eq, decide_eq_true_eq]
      tauto
    simp [processSignature, hinv]
  · intro s hinv hdraw hfb
    simp [processSignature, hinv, hdraw, hfb]

/-- Demo page-size table for the C10 witness. -/
def demoDims : ℕ → ℚ × ℚ := fun _ => (595, 842)

/-- Demo text-width metric for the C10 witness. -/
def demoWidthOf : String → ℚ → ℚ := fun _ _ => 50

/-- Demo failure oracle for the C10 witness: drawing throws exactly on page
2. -/
def demoDrawFails (s : EdgeSignature) : Bool := s.page == 2

/-- Demo no-failure oracle for the C10 witness. -/
def demoNoFail (_ : EdgeSignature) : Bool := false

/-- C10 witness: a request with an out-of-range signature (page 7 of 3) and
a signature whose drawing throws (page 2): the former is skipped, the
latter falls back, and the response still succeeds. -/
theorem edge_loop_independent_witness :
    ((⟨7, 10, 20, 120, 30, "Jane", none, some 12⟩ : EdgeSignature).content = "" ∨
      (⟨7, 10, 20, 120, 30, "Jane", none, some 12⟩ : EdgeSignature).page < 1 ∨
      ((3 : ℕ) : ℤ) < (⟨7, 10, 20, 120, 30, "Jane", none, some 12⟩ : EdgeSignature).page) ∧
    processSignature 3 demoDims demoWidthOf demoDrawFails demoNoFail
      ⟨7, 10, 20, 120, 30, "Jane", none, some 12⟩ = .skipped ∧
    processSignature 3 demoDims demoWidthOf demoDrawFails demoNoFail
      ⟨2, 10, 20, 120, 30, "Jane", none, some 12⟩ =
      .fallbackDrawn (normalizeContent "Jane") (max 15 (min 10 (595 - 150)))
        (max 20 (min 20 (842 - 30))) (jsOrQ (some 12) 16) "times-roman-italic" ∧
    (serveAbsolutePrecision 3 demoDims demoWidthOf demoDrawFails demoNoFail
      [⟨7, 10, 20, 120, 30, "Jane", none, some 12⟩,
       ⟨2, 10, 20, 120, 30, "Jane", none, some 12⟩]).success = true := by
  have h := edge_loop_independent 3 demoDims demoWidthOf demoDrawFails demoNoFail
    [⟨7, 10, 20, 120, 30, "Jane", none, some 12⟩,
     ⟨2, 10, 20, 120, 30, "Jane", none, some 12⟩]
  refine ⟨by norm_num, ?_, ?_, h.1⟩
  · exact h.2.2.1 ⟨7, 10, 20, 120, 30, "Jane", none, some 12⟩ (by norm_num)
  · exact h.2.2.2 ⟨2, 10, 20, 120, 30, "Jane", none, some 12⟩ (by decide) (by decide)
      (by decide)

end SignYourPdf
